import Mathlib

/-!
Verification of `examples/datasets/dataset_origin_example.py`.

The script is a linear Python program that reads one environment variable,
makes four HTTP calls to a fixed remote service, prints results, and prints a
fixed block of explanatory text.  We embed it shallowly:

* `Json` models the parsed JSON values that `resp.json()` returns and that the
  `json=` keyword argument serialises.  Numbers are modelled as `Int` (the
  script only ever manipulates strings and nested objects; no claim depends on
  floating point).
* Python dictionary subscripting `d[k]` raises `KeyError` when the key is
  missing and `TypeError` on a non-dict; `d.get(k)` returns `None` when the key
  is missing and raises `AttributeError` on a non-dict.  These are `Json.getKey`
  (an `Except`) and `Json.getOpt` / `recordLines` below.
* The run of the script is a pure function of the environment (a map from
  variable names to optional string values, as read by `os.environ.get`) and an
  oracle giving the parsed response body of the n-th HTTP call (0 = project,
  1 = dataset, 2 = insert, 3 = fetch).  It returns the ordered trace of effects
  (terminal prints and outgoing HTTP requests) together with the final outcome
  (normal return or an uncaught Python exception).  `Event.print` models
  Python's `print`, which writes to standard output.
-/

inductive Json where
  | null
  | bool (b : Bool)
  | num (n : Int)
  | str (s : String)
  | arr (xs : List Json)
  | obj (fields : List (String × Json))

/-- Python runtime errors that the script can raise: `KeyError` from `d[k]` on
a missing key, `TypeError` from subscripting / `len()` / iterating a value of
the wrong type, `AttributeError` from calling `.get` on a non-dict. -/
inductive PyError where
  | keyError
  | typeError
  | attributeError
deriving DecidableEq

/-- Final outcome of a run: `main` returned normally, or an uncaught Python
exception terminated the process. -/
inductive Outcome where
  | normal
  | exn (e : PyError)

mutual

/-- Python `repr` of a parsed-JSON value, as used by `str()` on containers:
`repr(None) = "None"`, strings are quoted, dicts print as
`\x7b'k': v, ...\x7d`, lists as `[v, ...]`. -/
def Json.pyRepr : Json → String
  | .null => "None"
  | .bool true => "True"
  | .bool false => "False"
  | .num n => toString n
  | .str s => "\x27" ++ s ++ "\x27"
  | .arr xs => "[" ++ pyReprList xs ++ "]"
  | .obj fs => "\x7b" ++ pyReprFields fs ++ "\x7d"

/-- Comma-separated `repr`s of the elements of a Python list. -/
def pyReprList : List Json → String
  | [] => ""
  | [j] => Json.pyRepr j
  | j :: rest => Json.pyRepr j ++ ", " ++ pyReprList rest

/-- Comma-separated `'key': repr(value)` entries of a Python dict. -/
def pyReprFields : List (String × Json) → String
  | [] => ""
  | [(k, v)] => "\x27" ++ k ++ "\x27: " ++ Json.pyRepr v
  | (k, v) :: rest => "\x27" ++ k ++ "\x27: " ++ Json.pyRepr v ++ ", " ++ pyReprFields rest

end

/-- Python `str()` of a parsed-JSON value, as interpolated by f-strings:
identical to `repr` except on strings, which print unquoted. -/
def Json.pyStr : Json → String
  | .str s => s
  | j => j.pyRepr

/-- Python `str()` of an optional value: `str(None) = "None"`. -/
def pyStrOpt : Option Json → String
  | none => "None"
  | some j => j.pyStr

/-- Python subscripting `d[k]`: the value when `d` is a dict containing `k`,
`KeyError` when `d` is a dict without `k`, `TypeError` otherwise. -/
def Json.getKey : Json → String → Except PyError Json
  | .obj fs, k =>
    match List.lookup k fs with
    | some v => .ok v
    | none => .error .keyError
  | _, _ => .error .typeError

/-- Python `d.get(k)` on a dict: the value when present, `None` when absent.
On a non-dict the script's `.get` call raises `AttributeError`; that case is
handled at the call site (`recordLines`). -/
def Json.getOpt : Json → String → Option Json
  | .obj fs, k => List.lookup k fs
  | _, _ => none

/-- Python truthiness of a parsed-JSON value (`None`, `False`, `0`, `""`,
`[]` and `\x7b\x7d` are falsy). -/
def Json.truthy : Json → Bool
  | .null => false
  | .bool b => b
  | .num n => n != 0
  | .str s => !s.isEmpty
  | .arr xs => !xs.isEmpty
  | .obj fs => !fs.isEmpty

/-- HTTP method used by the script (`requests.get` / `requests.post`). -/
inductive Method where
  | get
  | post
deriving DecidableEq

/-- An outgoing HTTP request as issued through the `requests` library:
method, full URL string, headers, optional JSON body (the `json=` argument)
and query parameters (the `params=` argument, already stringified the way
`requests` encodes them). -/
structure Request where
  method : Method
  url : String
  headers : List (String × String)
  body : Option Json
  params : List (String × String)

/-- An observable effect of the script: a `print` to standard output, or an
HTTP request sent to the remote service. These are the only effectful
operations the script performs (it reads `os.environ` but never writes it,
opens no files, and mutates no globals). -/
inductive Event where
  | print (s : String)
  | request (r : Request)

/-- The fixed base host, line 17 of the script. -/
def baseUrl : String := "https://api.braintrust.dev"

/-- The headers dict built on line 18: a single bearer-token header. -/
def mkHeaders (apiKey : String) : List (String × String) :=
  [("Authorization", "Bearer " ++ apiKey)]

/-- Body of the project get-or-create call, lines 22-26. -/
def projectBody : Json :=
  .obj [("name", .str "python-origin-demo"), ("org_name", .str "Braintrust")]

/-- Step 1 request: `POST /v1/project`, lines 22-26. -/
def projectRequest (apiKey : String) : Request :=
  { method := .post
    url := baseUrl ++ "/v1/project"
    headers := mkHeaders apiKey
    body := some projectBody
    params := [] }

/-- Body of the dataset-creation call, lines 33-40: the `project_id` field is
the `id` value taken from the project response. -/
def datasetBody (project_id : Json) : Json :=
  .obj [("project_id", project_id), ("name", .str "Python Dataset Example")]

/-- Step 2 request: `POST /v1/dataset`, lines 33-40. -/
def datasetRequest (apiKey : String) (project_id : Json) : Request :=
  { method := .post
    url := baseUrl ++ "/v1/dataset"
    headers := mkHeaders apiKey
    body := some (datasetBody project_id)
    params := [] }

/-- First hardcoded record inserted on lines 52-55. -/
def insertEvent1 : Json :=
  .obj [("input", .obj [("text", .str "hello world")]),
        ("expected", .obj [("response", .str "Hello World")])]

/-- Second hardcoded record inserted on lines 56-59. -/
def insertEvent2 : Json :=
  .obj [("input", .obj [("text", .str "braintrust is awesome")]),
        ("expected", .obj [("response", .str "Braintrust Is Awesome")])]

/-- Body of the insert call, lines 50-61: the two fixed records as a batch. -/
def insertBody : Json :=
  .obj [("events", .arr [insertEvent1, insertEvent2])]

/-- Step 3 request: `POST /v1/dataset/{id}/insert`, lines 47-62; the URL
interpolates `str(dataset_id)`. -/
def insertRequest (apiKey : String) (dataset_id : Json) : Request :=
  { method := .post
    url := baseUrl ++ "/v1/dataset/" ++ dataset_id.pyStr ++ "/insert"
    headers := mkHeaders apiKey
    body := some insertBody
    params := [] }

/-- Step 4 request: `GET /v1/dataset/{id}/fetch` with `params=\x7b"limit": 10\x7d`,
lines 67-71. -/
def fetchRequest (apiKey : String) (dataset_id : Json) : Request :=
  { method := .get
    url := baseUrl ++ "/v1/dataset/" ++ dataset_id.pyStr ++ "/fetch"
    headers := mkHeaders apiKey
    body := none
    params := [("limit", "10")] }

/-- The six lines printed for the i-th fetched record (0-based `i`; the script
prints `i+1`), lines 75-81: header plus the five fields read with `.get`,
each defaulting to `None` when absent. -/
def recordBlock (i : Nat) (ev : Json) : List Event :=
  [ .print ("\n   Record " ++ toString (i + 1) ++ ":"),
    .print ("     - id: " ++ pyStrOpt (ev.getOpt "id")),
    .print ("     - _xact_id: " ++ pyStrOpt (ev.getOpt "_xact_id")),
    .print ("     - created: " ++ pyStrOpt (ev.getOpt "created")),
    .print ("     - input: " ++ pyStrOpt (ev.getOpt "input")),
    .print ("     - expected: " ++ pyStrOpt (ev.getOpt "expected")) ]

/-- One iteration of the fetch loop body, lines 76-81.  When the event is a
dict, all five `.get` calls succeed and the full block is printed.  When it is
not, the header line (line 76) has already been printed before the first
`event.get` raises `AttributeError`. -/
def recordLines (i : Nat) (ev : Json) : List Event × Option PyError :=
  match ev with
  | .obj _ => (recordBlock i ev, none)
  | _ => ([.print ("\n   Record " ++ toString (i + 1) ++ ":")], some .attributeError)

/-- The fetch loop, lines 75-81: prints each event's block in order, stopping
with the pending exception if an iteration raises. -/
def loopEvents : Nat → List Json → List Event × Option PyError
  | _, [] => ([], none)
  | i, ev :: rest =>
    match recordLines i ev with
    | (t, some e) => (t, some e)
    | (t, none) =>
      let r := loopEvents (i + 1) rest
      (t ++ r.1, r.2)

/-- Eighty equals signs, the separator `"="*80` of lines 83-85. -/
def eq80 : String := String.mk (List.replicate 80 '=')

/-- The fixed explanatory text printed on lines 86-132 (the triple-quoted
string, including its leading and trailing newline). -/
def explainBlock : String :=
  "\nWhen Python\x27s Eval() runs with a dataset:\n\n1. It iterates over dataset records which have:\n   - id: the record identifier\n   - _xact_id: transaction ID\n   - created: timestamp\n   - input: your input data\n   - expected: expected output\n\n2. For each record, it creates an EvalCase with these fields populated:\n   datum = EvalCase(\n       input=record[\x27input\x27],\n       expected=record[\x27expected\x27],\n       id=record[\x27id\x27],\n       _xact_id=record[\x27_xact_id\x27],\n       created=record[\x27created\x27]\n   )\n\n3. When logging the eval span, it checks if datum has id and _xact_id:\n   origin = \x7b\n       \"object_type\": \"dataset\",\n       \"object_id\": dataset.id,\n       \"id\": datum.id,\n       \"created\": datum.created,\n       \"_xact_id\": datum._xact_id,\n   \x7d if datum.id and datum._xact_id else None\n\n4. The origin is passed to the span logger:\n   experiment.start_span(\n       name=\"eval\",\n       input=datum.input,\n       expected=datum.expected,\n       origin=origin  # <-- This links it back to the dataset row\n   )\n\n🎉 THE GO SDK DOES THE SAME THING!\n\nIn Go (examples/datasets/main.go):\n1. Creates dataset via API ✅\n2. Inserts records ✅\n3. Fetches records with evaluator.Datasets().Get() ✅\n4. Each Case has ID, XactID, Created fields populated ✅\n5. runCase() sets origin span attribute when fields present ✅\n\nBoth implementations now match!\n"

/-- The fixed prints after the fetch loop, lines 83-137. -/
def closing : List Event :=
  [ .print ("\n" ++ eq80),
    .print "🎯 HOW ORIGIN WORKS IN PYTHON SDK",
    .print eq80,
    .print explainBlock,
    .print "\n💡 To see origin in action:",
    .print "   1. Run the Go example: go run examples/datasets/main.go",
    .print "   2. Check the Braintrust UI - each eval result will have origin info",
    .print "   3. The origin links back to the dataset record that generated it" ]

/-- Python `len()` on a parsed-JSON value: defined for lists, strings and
dicts, `TypeError` otherwise (line 74). -/
def Json.pyLen : Json → Except PyError Nat
  | .arr xs => .ok xs.length
  | .str s => .ok s.length
  | .obj fs => .ok fs.length
  | _ => .error .typeError

/-- Python iteration over a parsed-JSON value: list elements, string
characters, or dict keys; `TypeError` otherwise (line 75). -/
def Json.pyIter : Json → Except PyError (List Json)
  | .arr xs => .ok xs
  | .str s => .ok (s.data.map fun c => Json.str (String.mk [c]))
  | .obj fs => .ok (fs.map fun p => Json.str p.1)
  | _ => .error .typeError

/-- Lines 74-137: everything after the fetch request, as a function of the
parsed fetch response.  Line 74 evaluates `fetch_result["events"]` and `len`
before printing; line 75 iterates the same value; then the loop runs and the
closing prints follow. -/
def processFetch (fetchResp : Json) : List Event × Outcome :=
  match fetchResp.getKey "events" with
  | .error e => ([], .exn e)
  | .ok evs =>
    match evs.pyLen with
    | .error e => ([], .exn e)
    | .ok n =>
      let countLine := Event.print ("   ✓ Fetched " ++ toString n ++ " records")
      match evs.pyIter with
      | .error e => ([countLine], .exn e)
      | .ok items =>
        let lp := loopEvents 0 items
        match lp.2 with
        | some e => (countLine :: lp.1, .exn e)
        | none => (countLine :: lp.1 ++ closing, .normal)

/-- The error line printed on line 14 when the credential is missing. -/
def errorLine : Event := .print "Error: BRAINTRUST_API_KEY not set"

/-- The body of `main` as a function of the value `os.environ.get
("BRAINTRUST_API_KEY")` and the three parsed response bodies the script
inspects (project, dataset, fetch).  The insert response body is assigned but
never parsed or read by the script, so it is not an input here.  Python
truthiness on `api_key` means `None` and the empty string both take the
early-exit branch of lines 13-15. -/
def scriptRunOn (apiKey : Option String) (projectResp datasetResp fetchResp : Json) :
    List Event × Outcome :=
  match apiKey with
  | none => ([errorLine], .normal)
  | some key =>
    if key = "" then ([errorLine], .normal)
    else
      let t1 : List Event :=
        [.print "1️⃣  Getting project...", .request (projectRequest key)]
      match projectResp.getKey "id" with
      | .error e => (t1, .exn e)
      | .ok project_id =>
        let t2 : List Event := t1 ++
          [.print ("   ✓ Project ID: " ++ project_id.pyStr),
           .print "\n2️⃣  Creating dataset...",
           .request (datasetRequest key project_id)]
        match datasetResp.getKey "id" with
        | .error e => (t2, .exn e)
        | .ok dataset_id =>
          let t3 : List Event := t2 ++
            [.print ("   ✓ Dataset ID: " ++ dataset_id.pyStr),
             .print "\n3️⃣  Inserting records into dataset...",
             .request (insertRequest key dataset_id),
             .print "   ✓ Inserted records",
             .print "\n4️⃣  Fetching records to see their IDs...",
             .request (fetchRequest key dataset_id)]
          let r4 := processFetch fetchResp
          (t3 ++ r4.1, r4.2)

/-- A full run of the script: the environment is the map read by
`os.environ.get`, and `oracle n` is the parsed body of the n-th HTTP call
(0 = project, 1 = dataset, 2 = insert, 3 = fetch).  The script never calls
`.json()` on the insert response, so `oracle 2` is not consulted. -/
def scriptRun (env : String → Option String) (oracle : Nat → Json) :
    List Event × Outcome :=
  scriptRunOn (env "BRAINTRUST_API_KEY") (oracle 0) (oracle 1) (oracle 3)

/-- The HTTP requests of a trace, in order. -/
def requestsOf (t : List Event) : List Request :=
  t.filterMap fun e =>
    match e with
    | .request r => some r
    | _ => none

/-- Process exit status: a normal return from `main` (the script never calls
`sys.exit`) exits with status 0; an uncaught exception makes the interpreter
exit with status 1. -/
def exitCode : Outcome → Nat
  | .normal => 0
  | .exn _ => 1

/-- The derived origin reference linking an evaluation result back to a
dataset record: the composite documented by the script on lines 105-112. -/
structure Origin where
  object_type : String
  object_id : Json
  id : Json
  created : Option Json
  _xact_id : Json

/-- Origin derivation as documented by the script (printed pseudo-code, lines
105-112): the composite is built exactly when `datum.id and datum._xact_id`
is truthy in Python, i.e. when both fields are present on the source record
with truthy (non-empty, non-null, non-zero) values; otherwise the origin is
`None`. -/
def deriveOrigin (dataset_id : Json) (record : Json) : Option Origin :=
  match record.getOpt "id", record.getOpt "_xact_id" with
  | some i, some x =>
    if i.truthy && x.truthy then
      some { object_type := "dataset"
             object_id := dataset_id
             id := i
             created := record.getOpt "created"
             _xact_id := x }
    else none
  | _, _ => none

/-! ### Concrete fixtures used by witnesses and counterexamples -/

/-- An environment with no variables set. -/
def envNone : String → Option String := fun _ => none

/-- An environment where the credential is set to the empty string. -/
def envEmpty : String → Option String :=
  fun x => if x = "BRAINTRUST_API_KEY" then some "" else none

/-- An environment with the credential set to a non-empty token. -/
def envOk : String → Option String :=
  fun x => if x = "BRAINTRUST_API_KEY" then some "sk-test" else none

/-- A trivial response oracle (never inspected on early-exit runs). -/
def nullOracle : Nat → Json := fun _ => Json.null

/-- A fetched record with all five fields present and truthy. -/
def goodRecord1 : Json :=
  .obj [("id", .str "rec-1"), ("_xact_id", .str "1000"),
        ("created", .str "2024-01-01T00:00:00Z"),
        ("input", .obj [("text", .str "hello world")]),
        ("expected", .obj [("response", .str "Hello World")])]

/-- A fetched record whose `id` field is present but equal to the empty
string (a falsy Python value). -/
def c1Record : Json :=
  .obj [("id", .str ""), ("_xact_id", .str "t1"), ("created", .str "2024-01-01")]

/-- A fetched record with no `_xact_id` field. -/
def c2Record : Json := .obj [("id", .str "rec-2")]

/-- A second fetched record with all five fields present. -/
def goodRecord2 : Json :=
  .obj [("id", .str "rec-2"), ("_xact_id", .str "1001"),
        ("created", .str "2024-01-01T00:00:01Z"),
        ("input", .obj [("text", .str "braintrust is awesome")]),
        ("expected", .obj [("response", .str "Braintrust Is Awesome")])]

/-- A well-formed response oracle: project and dataset responses carrying an
`id`, and a fetch response whose `events` are two record objects. -/
def goodOracle : Nat → Json :=
  fun n =>
    if n = 0 then .obj [("id", .str "proj-1")]
    else if n = 1 then .obj [("id", .str "ds-1")]
    else if n = 3 then .obj [("events", .arr [goodRecord1, goodRecord2])]
    else .null

/-- An oracle whose fetch response contains one record object that has an
`input` field but no `id` field. -/
def c6Oracle : Nat → Json :=
  fun n =>
    if n = 0 then .obj [("id", .str "proj-1")]
    else if n = 1 then .obj [("id", .str "ds-1")]
    else if n = 3 then .obj [("events", .arr [Json.obj [("input", .str "x")]])]
    else .null

/-- An oracle whose responses are JSON objects with no fields at all. -/
def emptyObjOracle : Nat → Json := fun _ => Json.obj []

/-- An oracle whose project response carries an `id` but whose dataset
response is an object with no `id` field. -/
def c6DatasetOracle : Nat → Json :=
  fun n => if n = 0 then Json.obj [("id", Json.str "proj-1")] else Json.obj []

/-- An oracle whose project and dataset responses carry ids but whose fetch
response is an object with no `events` field. -/
def c6FetchOracle : Nat → Json :=
  fun n =>
    if n = 0 then Json.obj [("id", Json.str "proj-1")]
    else if n = 1 then Json.obj [("id", Json.str "ds-1")]
    else Json.obj []

/-- The eleven trace events from step 1 up to and including the fetch request
(lines 21-71), once the project and dataset ids have been extracted. -/
def preFetchTrace (key : String) (project_id dataset_id : Json) : List Event :=
  [ .print "1️⃣  Getting project...",
    .request (projectRequest key),
    .print ("   ✓ Project ID: " ++ project_id.pyStr),
    .print "\n2️⃣  Creating dataset...",
    .request (datasetRequest key project_id),
    .print ("   ✓ Dataset ID: " ++ dataset_id.pyStr),
    .print "\n3️⃣  Inserting records into dataset...",
    .request (insertRequest key dataset_id),
    .print "   ✓ Inserted records",
    .print "\n4️⃣  Fetching records to see their IDs...",
    .request (fetchRequest key dataset_id) ]

/-- The record blocks of the fetched records, enumerated in order: the i-th
record contributes its six-line block, and blocks appear in list order. -/
def recordBlocks (i : Nat) : List Json → List Event
  | [] => []
  | ev :: rest => recordBlock i ev ++ recordBlocks (i + 1) rest

/-- A trace consisting of terminal output only: no HTTP request in it. -/
def printsOnly (t : List Event) : Prop :=
  ∀ e ∈ t, ∃ s, e = Event.print s

/-! ### C1 and C2: the origin derivation -/

/-- C1 (counterexample): a record whose `id` and `_xact_id` fields are both
present, but with `id` equal to the empty string, yields no origin at all —
not the composite value the claim requires — because the documented guard is
Python truthiness, not presence. -/
theorem c1_origin_presence_counterexample :
    c1Record.getOpt "id" = some (Json.str "") ∧
    c1Record.getOpt "_xact_id" = some (Json.str "t1") ∧
    deriveOrigin (Json.str "ds-1") c1Record = none ∧
    deriveOrigin (Json.str "ds-1") c1Record ≠
      some { object_type := "dataset", object_id := Json.str "ds-1",
             id := Json.str "", created := some (Json.str "2024-01-01"),
             _xact_id := Json.str "t1" } := by
  refine ⟨rfl, rfl, rfl, fun h => ?_⟩
  rw [show deriveOrigin (Json.str "ds-1") c1Record = none from rfl] at h
  exact Option.noConfusion h

/-- C1 (amended): for every fetched record in which the `id` and `_xact_id`
fields are both present with truthy values, the derived origin reference
equals exactly the composite
`\x7bobject_type: "dataset", object_id: dataset_id, id: record.id,
created: record.created, _xact_id: record._xact_id\x7d`. -/
theorem c1_origin_composite (dataset_id record i x : Json)
    (h1 : record.getOpt "id" = some i)
    (h2 : record.getOpt "_xact_id" = some x)
    (ht1 : i.truthy = true) (ht2 : x.truthy = true) :
    deriveOrigin dataset_id record =
      some { object_type := "dataset", object_id := dataset_id, id := i,
             created := record.getOpt "created", _xact_id := x } := by
  simp [deriveOrigin, h1, h2, ht1, ht2]

/-- Witness for C1 at a fully concrete record. -/
theorem c1_origin_composite_witness :
    goodRecord1.getOpt "id" = some (Json.str "rec-1") ∧
    goodRecord1.getOpt "_xact_id" = some (Json.str "1000") ∧
    (Json.str "rec-1").truthy = true ∧
    (Json.str "1000").truthy = true ∧
    deriveOrigin (Json.str "ds-1") goodRecord1 =
      some { object_type := "dataset", object_id := Json.str "ds-1",
             id := Json.str "rec-1",
             created := some (Json.str "2024-01-01T00:00:00Z"),
             _xact_id := Json.str "1000" } :=
  ⟨rfl, rfl, rfl, rfl,
    c1_origin_composite (Json.str "ds-1") goodRecord1 (Json.str "rec-1")
      (Json.str "1000") rfl rfl rfl rfl⟩

/-- C2: for every fetched record in which the `id` field or the `_xact_id`
field is missing, no origin reference is produced. -/
theorem c2_origin_missing_none (dataset_id record : Json)
    (h : record.getOpt "id" = none ∨ record.getOpt "_xact_id" = none) :
    deriveOrigin dataset_id record = none := by
  rcases h with h | h
  · cases hx : record.getOpt "_xact_id" <;> simp [deriveOrigin, h, hx]
  · cases hi : record.getOpt "id" <;> simp [deriveOrigin, h, hi]

/-- Witness for C2 at a concrete record lacking `_xact_id`. -/
theorem c2_origin_missing_none_witness :
    c2Record.getOpt "_xact_id" = none ∧
    deriveOrigin (Json.str "ds-1") c2Record = none :=
  ⟨rfl, c2_origin_missing_none (Json.str "ds-1") c2Record (Or.inr rfl)⟩

/-! ### C3, C9, C10: the missing-credential early exit -/

/-- C3: if the credential environment variable is absent, the run's whole
trace is the single configuration-error line (reported exactly once), no HTTP
request is issued, and the run terminates normally. -/
theorem c3_missing_key_no_network (env : String → Option String)
    (oracle : Nat → Json) (h : env "BRAINTRUST_API_KEY" = none) :
    scriptRun env oracle =
      ([Event.print "Error: BRAINTRUST_API_KEY not set"], Outcome.normal) ∧
    requestsOf (scriptRun env oracle).1 = [] := by
  have hrun : scriptRun env oracle = ([errorLine], .normal) := by
    simp only [scriptRun, scriptRunOn, h]
  exact ⟨hrun, by rw [hrun]; rfl⟩

/-- Witness for C3 with an empty environment. -/
theorem c3_missing_key_no_network_witness :
    envNone "BRAINTRUST_API_KEY" = none ∧
    (scriptRun envNone nullOracle =
      ([Event.print "Error: BRAINTRUST_API_KEY not set"], Outcome.normal) ∧
     requestsOf (scriptRun envNone nullOracle).1 = []) :=
  ⟨rfl, c3_missing_key_no_network envNone nullOracle rfl⟩

/-- C9: a credential set to the empty string is treated identically to an
absent one — the run prints the configuration error, issues no HTTP request,
and returns early. -/
theorem c9_empty_key_like_missing (env : String → Option String)
    (oracle : Nat → Json)
    (h : env "BRAINTRUST_API_KEY" = none ∨ env "BRAINTRUST_API_KEY" = some "") :
    scriptRun env oracle =
      ([Event.print "Error: BRAINTRUST_API_KEY not set"], Outcome.normal) ∧
    requestsOf (scriptRun env oracle).1 = [] := by
  have hrun : scriptRun env oracle = ([errorLine], .normal) := by
    rcases h with h | h
    · simp only [scriptRun, scriptRunOn, h]
    · simp only [scriptRun, scriptRunOn, h]
      simp
  exact ⟨hrun, by rw [hrun]; rfl⟩

/-- Witness for C9 with the credential set to the empty string. -/
theorem c9_empty_key_like_missing_witness :
    envEmpty "BRAINTRUST_API_KEY" = some "" ∧
    (scriptRun envEmpty nullOracle =
      ([Event.print "Error: BRAINTRUST_API_KEY not set"], Outcome.normal) ∧
     requestsOf (scriptRun envEmpty nullOracle).1 = []) :=
  ⟨rfl, c9_empty_key_like_missing envEmpty nullOracle (Or.inr rfl)⟩

/-- C10: on the missing-credential early exit the error message is the sole
trace event — an `Event.print`, which models Python's `print` and therefore
goes to standard output, not standard error — and the process exit status is
0 (main returns normally and the script never calls `sys.exit`), so the
failure is indistinguishable from success by exit code. -/
theorem c10_error_to_stdout_exit_zero (env : String → Option String)
    (oracle : Nat → Json) (h : env "BRAINTRUST_API_KEY" = none) :
    (scriptRun env oracle).1 =
      [Event.print "Error: BRAINTRUST_API_KEY not set"] ∧
    exitCode (scriptRun env oracle).2 = 0 := by
  have hrun : scriptRun env oracle = ([errorLine], .normal) := by
    simp only [scriptRun, scriptRunOn, h]
  rw [hrun]
  exact ⟨rfl, rfl⟩

/-- Witness for C10 with an empty environment. -/
theorem c10_error_to_stdout_exit_zero_witness :
    envNone "BRAINTRUST_API_KEY" = none ∧
    ((scriptRun envNone nullOracle).1 =
      [Event.print "Error: BRAINTRUST_API_KEY not set"] ∧
     exitCode (scriptRun envNone nullOracle).2 = 0) :=
  ⟨rfl, c10_error_to_stdout_exit_zero envNone nullOracle rfl⟩

/-! ### Structure of the success path -/

theorem scriptRunOn_success (key : String) (hk : ¬ key = "")
    (p d f pid did : Json)
    (h0 : p.getKey "id" = .ok pid) (h1 : d.getKey "id" = .ok did) :
    scriptRunOn (some key) p d f =
      (preFetchTrace key pid did ++ (processFetch f).1, (processFetch f).2) := by
  simp only [scriptRunOn, h0, h1, if_neg hk]
  rfl

theorem requestsOf_append (a b : List Event) :
    requestsOf (a ++ b) = requestsOf a ++ requestsOf b :=
  List.filterMap_append a b _

theorem requestsOf_recordLines (i : Nat) (ev : Json) :
    requestsOf (recordLines i ev).1 = [] := by
  cases ev <;> rfl

theorem requestsOf_loopEvents :
    ∀ (items : List Json) (i : Nat), requestsOf (loopEvents i items).1 = [] := by
  intro items
  induction items with
  | nil => intro i; rfl
  | cons ev rest ih =>
    intro i
    have hev := requestsOf_recordLines i ev
    simp only [loopEvents]
    rcases h : recordLines i ev with ⟨t, err⟩
    rw [h] at hev
    cases err
    · simpa [requestsOf_append, hev] using ih (i + 1)
    · simpa using hev

theorem requestsOf_cons_print (s : String) (l : List Event) :
    requestsOf (Event.print s :: l) = requestsOf l := rfl

theorem requestsOf_processFetch (f : Json) : requestsOf (processFetch f).1 = [] := by
  rcases hk : f.getKey "events" with e | evs
  · simp only [processFetch, hk]
    rfl
  · rcases hl : evs.pyLen with e | n
    · simp only [processFetch, hk, hl]
      rfl
    · rcases hi : evs.pyIter with e | items
      · simp only [processFetch, hk, hl, hi]
        rfl
      · rcases herr : (loopEvents 0 items).2 with _ | e
        · simp only [processFetch, hk, hl, hi, herr]
          show requestsOf ((loopEvents 0 items).1 ++ closing) = []
          rw [requestsOf_append, requestsOf_loopEvents]
          rfl
        · simp only [processFetch, hk, hl, hi, herr]
          show requestsOf (loopEvents 0 items).1 = []
          exact requestsOf_loopEvents items 0

theorem requestsOf_success (key : String) (hk : ¬ key = "")
    (p d f pid did : Json)
    (h0 : p.getKey "id" = .ok pid) (h1 : d.getKey "id" = .ok did) :
    requestsOf (scriptRunOn (some key) p d f).1 =
      [projectRequest key, datasetRequest key pid,
       insertRequest key did, fetchRequest key did] := by
  rw [scriptRunOn_success key hk p d f pid did h0 h1]
  show requestsOf (preFetchTrace key pid did ++ (processFetch f).1) = _
  rw [requestsOf_append, requestsOf_processFetch, List.append_nil]
  rfl

theorem insert_url_unique (s : String) :
    (baseUrl ++ "/v1/project" ≠ baseUrl ++ "/v1/dataset/" ++ s ++ "/insert") ∧
    (baseUrl ++ "/v1/dataset" ≠ baseUrl ++ "/v1/dataset/" ++ s ++ "/insert") ∧
    (baseUrl ++ "/v1/dataset/" ++ s ++ "/fetch" ≠
      baseUrl ++ "/v1/dataset/" ++ s ++ "/insert") := by
  have e1 : ("/v1/project" : String).length = 11 := rfl
  have e2 : ("/v1/dataset" : String).length = 11 := rfl
  have e3 : ("/v1/dataset/" : String).length = 12 := rfl
  have e4 : ("/insert" : String).length = 7 := rfl
  have e5 : ("/fetch" : String).length = 6 := rfl
  refine ⟨fun h => ?_, fun h => ?_, fun h => ?_⟩ <;>
  · have hl := congrArg String.length h
    simp only [String.length_append, e1, e2, e3, e4, e5] at hl
    omega

/-! ### C4 and C7: the HTTP request sequence -/

/-- C7: on every run that reaches the fetch step, the four remote calls occur
in the fixed order project, dataset, insert, fetch; the dataset-creation
request body's `project_id` equals the `id` field of the project-creation
response; and both the insert and fetch request URLs embed the `id` field of
the dataset-creation response. -/
theorem c7_call_order_data_deps (env : String → Option String)
    (oracle : Nat → Json) (key : String) (pid did : Json)
    (henv : env "BRAINTRUST_API_KEY" = some key) (hk : key ≠ "")
    (h0 : (oracle 0).getKey "id" = .ok pid)
    (h1 : (oracle 1).getKey "id" = .ok did) :
    requestsOf (scriptRun env oracle).1 =
      [projectRequest key, datasetRequest key pid,
       insertRequest key did, fetchRequest key did] ∧
    (datasetRequest key pid).body =
      some (Json.obj [("project_id", pid),
                      ("name", Json.str "Python Dataset Example")]) ∧
    (insertRequest key did).url =
      baseUrl ++ "/v1/dataset/" ++ did.pyStr ++ "/insert" ∧
    (fetchRequest key did).url =
      baseUrl ++ "/v1/dataset/" ++ did.pyStr ++ "/fetch" := by
  refine ⟨?_, rfl, rfl, rfl⟩
  unfold scriptRun
  rw [henv]
  exact requestsOf_success key hk _ _ _ pid did h0 h1

/-- Witness for C7 at a concrete environment and oracle. -/
theorem c7_call_order_data_deps_witness :
    envOk "BRAINTRUST_API_KEY" = some "sk-test" ∧ "sk-test" ≠ "" ∧
    (goodOracle 0).getKey "id" = .ok (Json.str "proj-1") ∧
    (goodOracle 1).getKey "id" = .ok (Json.str "ds-1") ∧
    (requestsOf (scriptRun envOk goodOracle).1 =
      [projectRequest "sk-test", datasetRequest "sk-test" (Json.str "proj-1"),
       insertRequest "sk-test" (Json.str "ds-1"),
       fetchRequest "sk-test" (Json.str "ds-1")] ∧
     (datasetRequest "sk-test" (Json.str "proj-1")).body =
       some (Json.obj [("project_id", Json.str "proj-1"),
                       ("name", Json.str "Python Dataset Example")]) ∧
     (insertRequest "sk-test" (Json.str "ds-1")).url =
       baseUrl ++ "/v1/dataset/" ++ (Json.str "ds-1").pyStr ++ "/insert" ∧
     (fetchRequest "sk-test" (Json.str "ds-1")).url =
       baseUrl ++ "/v1/dataset/" ++ (Json.str "ds-1").pyStr ++ "/fetch") :=
  ⟨rfl, by decide, rfl, rfl,
    c7_call_order_data_deps envOk goodOracle "sk-test" (Json.str "proj-1")
      (Json.str "ds-1") rfl (by decide) rfl rfl⟩

/-- C4: on every run that reaches the insert step, exactly one request in the
whole run targets `POST /v1/dataset/{id}/insert`; its body is the fixed
`events` batch with the two hardcoded input/expected records; the events
after the insert request start with the static confirmation print (visible in
`preFetchTrace`); and the run is entirely insensitive to the insert response
body, which is never inspected. -/
theorem c4_insert_request_unique_fixed_body (env : String → Option String)
    (oracle : Nat → Json) (key : String) (pid did : Json)
    (henv : env "BRAINTRUST_API_KEY" = some key) (hk : key ≠ "")
    (h0 : (oracle 0).getKey "id" = .ok pid)
    (h1 : (oracle 1).getKey "id" = .ok did) :
    (∃ rest, (scriptRun env oracle).1 = preFetchTrace key pid did ++ rest ∧
       requestsOf rest = []) ∧
    List.countP
      (fun r => r.url == baseUrl ++ "/v1/dataset/" ++ did.pyStr ++ "/insert")
      (requestsOf (scriptRun env oracle).1) = 1 ∧
    (insertRequest key did).method = Method.post ∧
    (insertRequest key did).url =
      baseUrl ++ "/v1/dataset/" ++ did.pyStr ++ "/insert" ∧
    (insertRequest key did).body =
      some (Json.obj [("events", Json.arr [insertEvent1, insertEvent2])]) ∧
    (∀ oracle2 : Nat → Json, oracle2 0 = oracle 0 → oracle2 1 = oracle 1 →
       oracle2 3 = oracle 3 → scriptRun env oracle2 = scriptRun env oracle) := by
  have hrun : scriptRun env oracle =
      (preFetchTrace key pid did ++ (processFetch (oracle 3)).1,
       (processFetch (oracle 3)).2) := by
    unfold scriptRun
    rw [henv]
    exact scriptRunOn_success key hk _ _ _ pid did h0 h1
  have hreq : requestsOf (scriptRun env oracle).1 =
      [projectRequest key, datasetRequest key pid, insertRequest key did,
       fetchRequest key did] := by
    unfold scriptRun
    rw [henv]
    exact requestsOf_success key hk _ _ _ pid did h0 h1
  have hne := insert_url_unique did.pyStr
  refine ⟨⟨(processFetch (oracle 3)).1, by rw [hrun], requestsOf_processFetch _⟩,
    ?_, rfl, rfl, rfl, ?_⟩
  · rw [hreq]
    simp [List.countP_cons, projectRequest, datasetRequest, insertRequest,
      fetchRequest, hne.1, hne.2.1, hne.2.2]
  · intro oracle2 g0 g1 g3
    unfold scriptRun
    rw [g0, g1, g3]

/-- Witness for C4 at a concrete environment and oracle. -/
theorem c4_insert_request_unique_fixed_body_witness :
    envOk "BRAINTRUST_API_KEY" = some "sk-test" ∧ "sk-test" ≠ "" ∧
    (goodOracle 0).getKey "id" = .ok (Json.str "proj-1") ∧
    (goodOracle 1).getKey "id" = .ok (Json.str "ds-1") ∧
    ((∃ rest, (scriptRun envOk goodOracle).1 =
        preFetchTrace "sk-test" (Json.str "proj-1") (Json.str "ds-1") ++ rest ∧
        requestsOf rest = []) ∧
     List.countP
       (fun r => r.url ==
         baseUrl ++ "/v1/dataset/" ++ (Json.str "ds-1").pyStr ++ "/insert")
       (requestsOf (scriptRun envOk goodOracle).1) = 1 ∧
     (insertRequest "sk-test" (Json.str "ds-1")).method = Method.post ∧
     (insertRequest "sk-test" (Json.str "ds-1")).url =
       baseUrl ++ "/v1/dataset/" ++ (Json.str "ds-1").pyStr ++ "/insert" ∧
     (insertRequest "sk-test" (Json.str "ds-1")).body =
       some (Json.obj [("events", Json.arr [insertEvent1, insertEvent2])]) ∧
     (∀ oracle2 : Nat → Json, oracle2 0 = goodOracle 0 →
        oracle2 1 = goodOracle 1 → oracle2 3 = goodOracle 3 →
        scriptRun envOk oracle2 = scriptRun envOk goodOracle)) :=
  ⟨rfl, by decide, rfl, rfl,
    c4_insert_request_unique_fixed_body envOk goodOracle "sk-test"
      (Json.str "proj-1") (Json.str "ds-1") rfl (by decide) rfl rfl⟩

/-! ### C5: the fetch step and the printing of records -/

theorem loopEvents_all_obj :
    ∀ (items : List Json) (i : Nat),
      (∀ ev ∈ items, ∃ fs, ev = Json.obj fs) →
      loopEvents i items = (recordBlocks i items, none) := by
  intro items
  induction items with
  | nil => intro i _; rfl
  | cons ev rest ih =>
    intro i h
    obtain ⟨fs, rfl⟩ := h _ (List.mem_cons_self ev rest)
    simp only [loopEvents, recordLines]
    rw [ih (i + 1) fun e he => h e (List.mem_cons_of_mem _ he)]
    simp [recordBlocks]

theorem processFetch_success (items : List Json) (f : Json)
    (hf : f.getKey "events" = .ok (Json.arr items))
    (hobj : ∀ ev ∈ items, ∃ fs, ev = Json.obj fs) :
    processFetch f =
      (Event.print ("   ✓ Fetched " ++ toString items.length ++ " records") ::
        (recordBlocks 0 items ++ closing), .normal) := by
  simp only [processFetch, hf, Json.pyLen, Json.pyIter,
    loopEvents_all_obj items 0 hobj]
  rfl

/-- C5: on every run that reaches the fetch step with a well-formed response,
the fetch request is a `GET` to `/v1/dataset/{id}/fetch` with the fixed query
parameter `limit=10`, and the trace is exactly: the pre-fetch events, the
count line, then — once each and in the order returned by the service — the
six-line block of each record of the response's `events` sequence, then the
fixed closing prints; the run ends normally. -/
theorem c5_fetch_request_and_print_order (env : String → Option String)
    (oracle : Nat → Json) (key : String) (pid did : Json)
    (items : List Json)
    (henv : env "BRAINTRUST_API_KEY" = some key) (hk : key ≠ "")
    (h0 : (oracle 0).getKey "id" = .ok pid)
    (h1 : (oracle 1).getKey "id" = .ok did)
    (h3 : (oracle 3).getKey "events" = .ok (Json.arr items))
    (hobj : ∀ ev ∈ items, ∃ fs, ev = Json.obj fs) :
    scriptRun env oracle =
      (preFetchTrace key pid did ++
        (Event.print ("   ✓ Fetched " ++ toString items.length ++ " records") ::
          (recordBlocks 0 items ++ closing)), Outcome.normal) ∧
    (fetchRequest key did).method = Method.get ∧
    (fetchRequest key did).params = [("limit", "10")] ∧
    (fetchRequest key did).url =
      baseUrl ++ "/v1/dataset/" ++ did.pyStr ++ "/fetch" := by
  refine ⟨?_, rfl, rfl, rfl⟩
  have hrun : scriptRun env oracle =
      (preFetchTrace key pid did ++ (processFetch (oracle 3)).1,
       (processFetch (oracle 3)).2) := by
    unfold scriptRun
    rw [henv]
    exact scriptRunOn_success key hk _ _ _ pid did h0 h1
  rw [hrun, processFetch_success items (oracle 3) h3 hobj]

/-- Witness for C5 at a concrete environment and oracle with two records. -/
theorem c5_fetch_request_and_print_order_witness :
    envOk "BRAINTRUST_API_KEY" = some "sk-test" ∧ "sk-test" ≠ "" ∧
    (goodOracle 0).getKey "id" = .ok (Json.str "proj-1") ∧
    (goodOracle 1).getKey "id" = .ok (Json.str "ds-1") ∧
    (goodOracle 3).getKey "events" =
      .ok (Json.arr [goodRecord1, goodRecord2]) ∧
    (∀ ev ∈ [goodRecord1, goodRecord2], ∃ fs, ev = Json.obj fs) ∧
    (scriptRun envOk goodOracle =
      (preFetchTrace "sk-test" (Json.str "proj-1") (Json.str "ds-1") ++
        (Event.print ("   ✓ Fetched " ++
            toString ([goodRecord1, goodRecord2] : List Json).length ++
            " records") ::
          (recordBlocks 0 [goodRecord1, goodRecord2] ++ closing)),
       Outcome.normal) ∧
     (fetchRequest "sk-test" (Json.str "ds-1")).method = Method.get ∧
     (fetchRequest "sk-test" (Json.str "ds-1")).params = [("limit", "10")] ∧
     (fetchRequest "sk-test" (Json.str "ds-1")).url =
       baseUrl ++ "/v1/dataset/" ++ (Json.str "ds-1").pyStr ++ "/fetch") := by
  have hobj : ∀ ev ∈ ([goodRecord1, goodRecord2] : List Json),
      ∃ fs, ev = Json.obj fs := by
    intro ev he
    rcases List.mem_cons.mp he with rfl | he2
    · exact ⟨_, rfl⟩
    · rcases List.mem_singleton.mp he2 with rfl
      exact ⟨_, rfl⟩
  exact ⟨rfl, by decide, rfl, rfl, rfl, hobj,
    c5_fetch_request_and_print_order envOk goodOracle "sk-test"
      (Json.str "proj-1") (Json.str "ds-1") [goodRecord1, goodRecord2]
      rfl (by decide) rfl rfl rfl hobj⟩

/-! ### C6: field access without validation -/

/-- C6 (counterexample): a fetched record with no `id` field does NOT make
the access fail — the loop reads record fields with the defaulting `.get`
accessor, so the run completes normally (exit status 0) and prints
`- id: None` instead of raising. -/
theorem c6_get_defaults_counterexample :
    (scriptRun envOk c6Oracle).2 = Outcome.normal ∧
    exitCode (scriptRun envOk c6Oracle).2 = 0 ∧
    (scriptRun envOk c6Oracle).1[13]? = some (Event.print "     - id: None") :=
  ⟨rfl, rfl, rfl⟩

/-- C6 (amended): the script performs no validation of response shapes before
field access; each of the three subscripted top-level fields — project `id`,
dataset `id`, fetch `events` — raises an uncaught runtime error at access
time when missing, terminating the run right after the last request issued
with nonzero exit status; whereas the fetched records' fields are read with
the defaulting `.get` accessor, which never raises on a record object and
yields `None` instead.  The three oracles describe a run failing at each of
the three access sites in turn. -/
theorem c6_no_validation_subscript_fails (env : String → Option String)
    (oracleA oracleB oracleC : Nat → Json) (key : String)
    (eA eB eC : PyError) (pidB pidC didC : Json)
    (henv : env "BRAINTRUST_API_KEY" = some key) (hk : key ≠ "")
    (hA : (oracleA 0).getKey "id" = .error eA)
    (hB0 : (oracleB 0).getKey "id" = .ok pidB)
    (hB1 : (oracleB 1).getKey "id" = .error eB)
    (hC0 : (oracleC 0).getKey "id" = .ok pidC)
    (hC1 : (oracleC 1).getKey "id" = .ok didC)
    (hC3 : (oracleC 3).getKey "events" = .error eC) :
    scriptRun env oracleA =
      ([Event.print "1️⃣  Getting project...",
        Event.request (projectRequest key)], Outcome.exn eA) ∧
    scriptRun env oracleB =
      ([Event.print "1️⃣  Getting project...",
        Event.request (projectRequest key),
        Event.print ("   ✓ Project ID: " ++ pidB.pyStr),
        Event.print "\n2️⃣  Creating dataset...",
        Event.request (datasetRequest key pidB)], Outcome.exn eB) ∧
    scriptRun env oracleC =
      (preFetchTrace key pidC didC, Outcome.exn eC) ∧
    (∀ e : PyError, exitCode (Outcome.exn e) = 1) ∧
    (∀ (i : Nat) (fs : List (String × Json)),
       (recordLines i (Json.obj fs)).2 = none) := by
  refine ⟨?_, ?_, ?_, fun e => rfl, fun i fs => rfl⟩
  · simp only [scriptRun, scriptRunOn, henv, hA, if_neg hk]
  · simp only [scriptRun, scriptRunOn, henv, hB0, hB1, if_neg hk]
    rfl
  · have hrun := scriptRunOn_success key hk (oracleC 0) (oracleC 1)
      (oracleC 3) pidC didC hC0 hC1
    unfold scriptRun
    rw [henv, hrun]
    simp only [processFetch, hC3, List.append_nil]

/-- Witness for the amended C6 at three concrete oracles, one missing each of
the three subscripted fields. -/
theorem c6_no_validation_subscript_fails_witness :
    envOk "BRAINTRUST_API_KEY" = some "sk-test" ∧ "sk-test" ≠ "" ∧
    (emptyObjOracle 0).getKey "id" = .error .keyError ∧
    (c6DatasetOracle 0).getKey "id" = .ok (Json.str "proj-1") ∧
    (c6DatasetOracle 1).getKey "id" = .error .keyError ∧
    (c6FetchOracle 0).getKey "id" = .ok (Json.str "proj-1") ∧
    (c6FetchOracle 1).getKey "id" = .ok (Json.str "ds-1") ∧
    (c6FetchOracle 3).getKey "events" = .error .keyError ∧
    (scriptRun envOk emptyObjOracle =
      ([Event.print "1️⃣  Getting project...",
        Event.request (projectRequest "sk-test")], Outcome.exn .keyError) ∧
     scriptRun envOk c6DatasetOracle =
      ([Event.print "1️⃣  Getting project...",
        Event.request (projectRequest "sk-test"),
        Event.print ("   ✓ Project ID: " ++ (Json.str "proj-1").pyStr),
        Event.print "\n2️⃣  Creating dataset...",
        Event.request (datasetRequest "sk-test" (Json.str "proj-1"))],
       Outcome.exn .keyError) ∧
     scriptRun envOk c6FetchOracle =
      (preFetchTrace "sk-test" (Json.str "proj-1") (Json.str "ds-1"),
       Outcome.exn .keyError) ∧
     (∀ e : PyError, exitCode (Outcome.exn e) = 1) ∧
     (∀ (i : Nat) (fs : List (String × Json)),
        (recordLines i (Json.obj fs)).2 = none)) :=
  ⟨rfl, by decide, rfl, rfl, rfl, rfl, rfl, rfl,
    c6_no_validation_subscript_fails envOk emptyObjOracle c6DatasetOracle
      c6FetchOracle "sk-test" .keyError .keyError .keyError
      (Json.str "proj-1") (Json.str "proj-1") (Json.str "ds-1")
      rfl (by decide) rfl rfl rfl rfl rfl rfl⟩

/-! ### C8: the script's effect frame -/

theorem printsOnly_recordBlock (i : Nat) (ev : Json) :
    printsOnly (recordBlock i ev) := by
  intro e he
  simp only [recordBlock, List.mem_cons, List.not_mem_nil, or_false] at he
  rcases he with rfl | rfl | rfl | rfl | rfl | rfl <;> exact ⟨_, rfl⟩

theorem printsOnly_recordLines (i : Nat) (ev : Json) :
    printsOnly (recordLines i ev).1 := by
  intro e he
  cases ev <;> simp only [recordLines] at he
  case obj fs => exact printsOnly_recordBlock i (Json.obj fs) e he
  all_goals
    rcases List.mem_singleton.mp he with rfl
    exact ⟨_, rfl⟩

theorem printsOnly_append (a b : List Event)
    (ha : printsOnly a) (hb : printsOnly b) : printsOnly (a ++ b) := by
  intro e he
  rcases List.mem_append.mp he with h | h
  · exact ha e h
  · exact hb e h

theorem printsOnly_loopEvents :
    ∀ (items : List Json) (i : Nat), printsOnly (loopEvents i items).1 := by
  intro items
  induction items with
  | nil => intro i e he; cases he
  | cons ev rest ih =>
    intro i
    have ht := printsOnly_recordLines i ev
    simp only [loopEvents]
    rcases h : recordLines i ev with ⟨t, err⟩
    rw [h] at ht
    cases err
    · show printsOnly (t ++ (loopEvents (i + 1) rest).1)
      exact printsOnly_append t _ ht (ih (i + 1))
    · exact ht

theorem printsOnly_closing : printsOnly closing := by
  intro e he
  simp only [closing, List.mem_cons, List.not_mem_nil, or_false] at he
  rcases he with rfl | rfl | rfl | rfl | rfl | rfl | rfl | rfl <;> exact ⟨_, rfl⟩

theorem printsOnly_processFetch (f : Json) : printsOnly (processFetch f).1 := by
  rcases hk : f.getKey "events" with e | evs
  · simp only [processFetch, hk]
    intro x hx
    cases hx
  · rcases hl : evs.pyLen with e | n
    · simp only [processFetch, hk, hl]
      intro x hx
      cases hx
    · rcases hi : evs.pyIter with e | items
      · simp only [processFetch, hk, hl, hi]
        intro x hx
        rcases List.mem_singleton.mp hx with rfl
        exact ⟨_, rfl⟩
      · rcases herr : (loopEvents 0 items).2 with _ | e
        · simp only [processFetch, hk, hl, hi, herr]
          intro x hx
          rcases List.mem_cons.mp hx with rfl | hx2
          · exact ⟨_, rfl⟩
          · exact printsOnly_append _ _ (printsOnly_loopEvents items 0)
              printsOnly_closing x hx2
        · simp only [processFetch, hk, hl, hi, herr]
          intro x hx
          rcases List.mem_cons.mp hx with rfl | hx2
          · exact ⟨_, rfl⟩
          · exact printsOnly_loopEvents items 0 x hx2

/-- C8: the script performs no local state mutation other than terminal
output: every event of any run's trace is either a `print` to the terminal or
one of the four HTTP requests (project creation, dataset creation, record
insertion, fetch) through which all entity creation happens on the remote
service.  The embedding's `Event` type enumerates the script's only effectful
operations (audited from the source: `os.environ.get` — a read, modelled as
an input — `print`, and `requests.get`/`requests.post`); the environment is a
pure input that the run never modifies, and no file is ever opened. -/
theorem c8_effects_only_print_and_request (env : String → Option String)
    (oracle : Nat → Json) :
    ∀ e ∈ (scriptRun env oracle).1,
      (∃ s, e = Event.print s) ∨
      (∃ k, e = Event.request (projectRequest k)) ∨
      (∃ k j, e = Event.request (datasetRequest k j)) ∨
      (∃ k j, e = Event.request (insertRequest k j)) ∨
      (∃ k j, e = Event.request (fetchRequest k j)) := by
  intro e he
  rcases ha : env "BRAINTRUST_API_KEY" with _ | key
  · have htr : scriptRun env oracle = ([errorLine], .normal) := by
      simp only [scriptRun, scriptRunOn, ha]
    rw [htr] at he
    rcases List.mem_singleton.mp he with rfl
    exact Or.inl ⟨_, rfl⟩
  · by_cases hk : key = ""
    · have htr : scriptRun env oracle = ([errorLine], .normal) := by
        simp only [scriptRun, scriptRunOn, ha, hk]
        simp
      rw [htr] at he
      rcases List.mem_singleton.mp he with rfl
      exact Or.inl ⟨_, rfl⟩
    · rcases h0 : (oracle 0).getKey "id" with e0 | pid
      · have htr : scriptRun env oracle =
            ([Event.print "1️⃣  Getting project...",
              Event.request (projectRequest key)], Outcome.exn e0) := by
          simp only [scriptRun, scriptRunOn, ha, h0, if_neg hk]
        rw [htr] at he
        simp only [List.mem_cons, List.not_mem_nil, or_false] at he
        rcases he with rfl | rfl
        · exact Or.inl ⟨_, rfl⟩
        · exact Or.inr (Or.inl ⟨key, rfl⟩)
      · rcases h1 : (oracle 1).getKey "id" with e1 | did
        · have htr : scriptRun env oracle =
              ([Event.print "1️⃣  Getting project...",
                Event.request (projectRequest key),
                Event.print ("   ✓ Project ID: " ++ pid.pyStr),
                Event.print "\n2️⃣  Creating dataset...",
                Event.request (datasetRequest key pid)], Outcome.exn e1) := by
            simp only [scriptRun, scriptRunOn, ha, h0, h1, if_neg hk]
            rfl
          rw [htr] at he
          simp only [List.mem_cons, List.not_mem_nil, or_false] at he
          rcases he with rfl | rfl | rfl | rfl | rfl
          · exact Or.inl ⟨_, rfl⟩
          · exact Or.inr (Or.inl ⟨key, rfl⟩)
          · exact Or.inl ⟨_, rfl⟩
          · exact Or.inl ⟨_, rfl⟩
          · exact Or.inr (Or.inr (Or.inl ⟨key, pid, rfl⟩))
        · have htr : scriptRun env oracle =
              (preFetchTrace key pid did ++ (processFetch (oracle 3)).1,
               (processFetch (oracle 3)).2) := by
            unfold scriptRun
            rw [ha]
            exact scriptRunOn_success key hk _ _ _ pid did h0 h1
          rw [htr] at he
          rcases List.mem_append.mp he with h | h
          · simp only [preFetchTrace, List.mem_cons, List.not_mem_nil,
              or_false] at h
            rcases h with rfl|rfl|rfl|rfl|rfl|rfl|rfl|rfl|rfl|rfl|rfl
            · exact Or.inl ⟨_, rfl⟩
            · exact Or.inr (Or.inl ⟨key, rfl⟩)
            · exact Or.inl ⟨_, rfl⟩
            · exact Or.inl ⟨_, rfl⟩
            · exact Or.inr (Or.inr (Or.inl ⟨key, pid, rfl⟩))
            · exact Or.inl ⟨_, rfl⟩
            · exact Or.inl ⟨_, rfl⟩
            · exact Or.inr (Or.inr (Or.inr (Or.inl ⟨key, did, rfl⟩)))
            · exact Or.inl ⟨_, rfl⟩
            · exact Or.inl ⟨_, rfl⟩
            · exact Or.inr (Or.inr (Or.inr (Or.inr ⟨key, did, rfl⟩)))
          · obtain ⟨s, rfl⟩ := printsOnly_processFetch (oracle 3) e h
            exact Or.inl ⟨_, rfl⟩

/-- Witness for C8 at a concrete run and trace event. -/
theorem c8_effects_only_print_and_request_witness :
    Event.print "Error: BRAINTRUST_API_KEY not set" ∈
      (scriptRun envNone nullOracle).1 ∧
    ((∃ s, Event.print "Error: BRAINTRUST_API_KEY not set" = Event.print s) ∨
     (∃ k, Event.print "Error: BRAINTRUST_API_KEY not set" =
        Event.request (projectRequest k)) ∨
     (∃ k j, Event.print "Error: BRAINTRUST_API_KEY not set" =
        Event.request (datasetRequest k j)) ∨
     (∃ k j, Event.print "Error: BRAINTRUST_API_KEY not set" =
        Event.request (insertRequest k j)) ∨
     (∃ k j, Event.print "Error: BRAINTRUST_API_KEY not set" =
        Event.request (fetchRequest k j))) :=
  ⟨List.Mem.head _,
    c8_effects_only_print_and_request envNone nullOracle _ (List.Mem.head _)⟩
